import Mathlib

/-!
Shallow embedding of the dock coordinator in `src/crates/workspace/src/dock.rs`
(crate `workspace` of the zed editor). The dock is a single auxiliary panel
region anchored Right, Bottom or Expanded, shown or hidden; `Dock` coordinates
its position with the two sidebars, the pane contents and input focus.

Only `dock.rs` is in the source tree; the collaborators it calls
(`Workspace::toggle_sidebar`, `Pane::add_item`, weak-handle upgrade, focus
transfer, the default-item factory) are external and are modelled from the
spec's boundary contracts; each such definition carries a doc comment saying
so. Effects (notifications, re-render requests, sidebar toggles, factory
invocations) are recorded in an explicit event trace on the workspace state.
-/

namespace DockModel

/-- Anchor of the dock: right edge, bottom edge, or expanded over the
workspace (`settings::DockAnchor`). -/
inductive DockAnchor
  | Right
  | Bottom
  | Expanded
deriving DecidableEq, Repr, BEq

/-- `DockPosition` from `dock.rs`: visibility tag carrying the anchor. -/
inductive DockPosition
  | Shown (anchor : DockAnchor)
  | Hidden (anchor : DockAnchor)
deriving DecidableEq, Repr

/-- `DockPosition::is_visible`. -/
def DockPosition.is_visible : DockPosition → Bool
  | DockPosition.Shown _ => true
  | DockPosition.Hidden _ => false

/-- `DockPosition::anchor`: extracts the anchor regardless of the tag. -/
def DockPosition.anchor : DockPosition → DockAnchor
  | DockPosition.Shown anchor => anchor
  | DockPosition.Hidden anchor => anchor

/-- `DockPosition::hide`: `Shown(a) -> Hidden(a)`, `Hidden(a)` unchanged. -/
def DockPosition.hide : DockPosition → DockPosition
  | DockPosition.Shown anchor => DockPosition.Hidden anchor
  | DockPosition.Hidden anchor => DockPosition.Hidden anchor

/-- `DockPosition::show`: `Hidden(a) -> Shown(a)`, `Shown(a)` unchanged. -/
def DockPosition.show : DockPosition → DockPosition
  | DockPosition.Hidden anchor => DockPosition.Shown anchor
  | DockPosition.Shown anchor => DockPosition.Shown anchor

/-- Side identity of a sidebar (`crate::sidebar::SidebarSide`). -/
inductive SidebarSide
  | Left
  | Right
deriving DecidableEq, Repr

/-- Where input focus currently is: the dock's pane, a center pane
(identified by view id), or some other view. -/
inductive FocusTarget
  | dockPane
  | centerPane (id : Nat)
  | other (id : Nat)
deriving DecidableEq, Repr

/-- A weak view handle: an id that may or may not still be alive. -/
structure WeakPane where
  id : Nat
  alive : Bool
deriving DecidableEq, Repr

/-- Modelled from the spec: upgrading a weak handle yields the referent when
it is still alive and nothing otherwise (§9 "upgrade-or-treat-as-absent"). -/
def WeakPane.upgrade (w : WeakPane) : Option Nat :=
  if w.alive then some w.id else none

/-- Observable effects of a dock transition, recorded in order of occurrence:
the `DockAnchorChanged` event emission, the `cx.notify()` re-render request,
a sidebar toggle, and an invocation of the default-item factory. -/
inductive Event
  | DockAnchorChanged
  | Notify
  | ToggledSidebar (side : SidebarSide)
  | FactoryInvoked
deriving DecidableEq, Repr

/-- The dock's pane, at the granularity Dock observes it: its items (by id),
which item is active, and the anchor tag set through `set_docked`. -/
structure Pane where
  items : List Nat
  active_item : Option Nat
  docked : Option DockAnchor
deriving DecidableEq, Repr

/-- The `Dock` struct from `dock.rs`: position, per-anchor size memory, and
the pane. The `default_item_factory` field is modelled as the fresh-item
construction in `invoke_default_item_factory` below. -/
structure Dock where
  position : DockPosition
  panel_sizes : List (DockAnchor × Nat)
  pane : Pane
deriving DecidableEq, Repr

/-- The slice of the `Workspace` state that the dock operations touch:
the dock, the two sidebars' open flags, the weak reference to the last
active center pane, input focus, a counter supplying fresh item ids for the
default-item factory, and the recorded event trace. -/
structure Workspace where
  dock : Dock
  left_sidebar_open : Bool
  right_sidebar_open : Bool
  last_active_center_pane : Option WeakPane
  focus : FocusTarget
  next_item_id : Nat
  events : List Event
deriving DecidableEq, Repr

/-- `Dock::visible_pane`: the pane if visible, absent otherwise. -/
def Dock.visible_pane (d : Dock) : Option Pane :=
  if d.position.is_visible then some d.pane else none

/-- `Dock::is_anchored_at`: visible and anchored at the given anchor. -/
def Dock.is_anchored_at (d : Dock) (anchor : DockAnchor) : Bool :=
  d.position.is_visible && decide (d.position.anchor = anchor)

/-- Modelled from the spec: `Workspace::toggle_sidebar` lives outside `src/`;
§6 says each sidebar exposes `is_open()` and a toggle operation, and Dock
calls toggle only when the sidebar is currently open (so this call closes
it). The model flips the open flag and records the toggle in the trace. -/
def toggle_sidebar (ws : Workspace) (side : SidebarSide) : Workspace :=
  match side with
  | SidebarSide.Left =>
      { ws with
          left_sidebar_open := !ws.left_sidebar_open,
          events := ws.events ++ [Event.ToggledSidebar SidebarSide.Left] }
  | SidebarSide.Right =>
      { ws with
          right_sidebar_open := !ws.right_sidebar_open,
          events := ws.events ++ [Event.ToggledSidebar SidebarSide.Right] }

/-- Modelled from the spec: `Pane::add_item` lives outside `src/`; §6 says the
pane supports `add_item(pane, item, make_active, make_focused, position)` and
Dock calls it with `make_active = true`, `make_focused = true` and no
position: the item is inserted, becomes the active item, and the dock pane
receives input focus. -/
def pane_add_item (ws : Workspace) (item : Nat) : Workspace :=
  { ws with
      dock := { ws.dock with
        pane := { ws.dock.pane with
          items := ws.dock.pane.items ++ [item],
          active_item := some item } },
      focus := FocusTarget.dockPane }

/-- Modelled from the spec: the default-item factory supplied at Dock
construction (§6), `(workspace) -> content handle`; it constructs a brand-new
content item each time. The model returns a fresh id and records the
invocation in the trace. -/
def invoke_default_item_factory (ws : Workspace) : Nat × Workspace :=
  (ws.next_item_id,
   { ws with
       next_item_id := ws.next_item_id + 1,
       events := ws.events ++ [Event.FactoryInvoked] })

/-- `Dock::set_dock_position` from `dock.rs`, the single choke point:
write the position, propagate the anchor to the pane via `set_docked`,
then the visible branch (right-sidebar exclusion, non-empty-dock invariant)
or the hidden branch (restore focus to the last active center pane if still
alive), and finally `cx.emit(DockAnchorChanged)` and `cx.notify()`. -/
def set_dock_position (ws0 : Workspace) (new_position : DockPosition) : Workspace :=
  let ws1 : Workspace :=
    { ws0 with dock := { ws0.dock with
        position := new_position,
        pane := { ws0.dock.pane with docked := some new_position.anchor } } }
  let ws2 : Workspace :=
    if ws1.dock.position.is_visible then
      let ws' : Workspace :=
        if ws1.dock.position.anchor = DockAnchor.Right then
          if ws1.right_sidebar_open then toggle_sidebar ws1 SidebarSide.Right else ws1
        else ws1
      if ws'.dock.pane.items = [] then
        let r := invoke_default_item_factory ws'
        pane_add_item r.2 r.1
      else
        { ws' with focus := FocusTarget.dockPane }
    else
      match ws1.last_active_center_pane.bind WeakPane.upgrade with
      | some pane_id => { ws1 with focus := FocusTarget.centerPane pane_id }
      | none => ws1
  { ws2 with events := ws2.events ++ [Event.DockAnchorChanged, Event.Notify] }

/-- `Dock::hide`: `set_dock_position` with the current position hidden. -/
def Dock.hide (ws : Workspace) : Workspace :=
  set_dock_position ws ws.dock.position.hide

/-- `Dock::show`: `set_dock_position` with the current position shown. -/
def Dock.show (ws : Workspace) : Workspace :=
  set_dock_position ws ws.dock.position.show

/-- `Dock::hide_on_sidebar_shown`: hide when (the right side opened and the
dock is anchored visible at Right) or the dock is anchored visible at
Expanded. -/
def hide_on_sidebar_shown (ws : Workspace) (sidebar_side : SidebarSide) : Workspace :=
  if (sidebar_side = SidebarSide.Right ∧ ws.dock.is_anchored_at DockAnchor.Right = true)
      ∨ ws.dock.is_anchored_at DockAnchor.Expanded = true then
    Dock.hide ws
  else
    ws

/-- `Dock::move_dock` (the `MoveDock` action handler): always show at the
requested anchor. -/
def move_dock (ws : Workspace) (new_anchor : DockAnchor) : Workspace :=
  set_dock_position ws (DockPosition.Shown new_anchor)

/-- Spec-side definition for the refinement claim, following §4.2's words:
"`move_to(workspace, anchor)` = `set_dock_position(workspace,
Shown(anchor))`". -/
def move_to_spec (ws : Workspace) (anchor : DockAnchor) : Workspace :=
  set_dock_position ws (DockPosition.Shown anchor)

/-- `set_dock_position` writes exactly the requested position and nothing
later in the call overwrites it. -/
theorem set_dock_position_dock_position (ws : Workspace) (p : DockPosition) :
    (set_dock_position ws p).dock.position = p := by
  simp only [set_dock_position, toggle_sidebar, pane_add_item,
    invoke_default_item_factory]
  repeat' split
  all_goals rfl

/-- `set_dock_position` never touches the per-anchor size memory. -/
theorem set_dock_position_panel_sizes (ws : Workspace) (p : DockPosition) :
    (set_dock_position ws p).dock.panel_sizes = ws.dock.panel_sizes := by
  simp only [set_dock_position, toggle_sidebar, pane_add_item,
    invoke_default_item_factory]
  repeat' split
  all_goals rfl

/-- `set_dock_position` never touches the left sidebar. -/
theorem set_dock_position_left_sidebar (ws : Workspace) (p : DockPosition) :
    (set_dock_position ws p).left_sidebar_open = ws.left_sidebar_open := by
  simp only [set_dock_position, toggle_sidebar, pane_add_item,
    invoke_default_item_factory]
  repeat' split
  all_goals rfl

/-- The pane's item list only ever grows across `set_dock_position`: either
it is unchanged, or (pane empty and new position visible) the single fresh
default item is appended. -/
theorem set_dock_position_items (ws : Workspace) (p : DockPosition) :
    (set_dock_position ws p).dock.pane.items = ws.dock.pane.items
    ∨ ((set_dock_position ws p).dock.pane.items
          = ws.dock.pane.items ++ [ws.next_item_id]
        ∧ ws.dock.pane.items = [] ∧ p.is_visible = true) := by
  simp only [set_dock_position, toggle_sidebar, pane_add_item,
    invoke_default_item_factory]
  repeat' split
  all_goals try (exact Or.inl rfl)
  all_goals
    rename_i hempty
    exact Or.inr ⟨by simp_all, by simpa using hempty, by simp_all⟩

/-- Claim C5: `DockPosition::hide` and `DockPosition::show` are idempotent
on every position. -/
theorem C5_position_idempotence (p : DockPosition) :
    p.hide.hide = p.hide ∧ p.show.show = p.show := by
  cases p <;> exact ⟨rfl, rfl⟩

/-- Claim C6: `hide` and `show` never change the anchor; `anchor` returns the
stored anchor regardless of the visibility tag. -/
theorem C6_anchor_preservation (a : DockAnchor) (p : DockPosition) :
    (DockPosition.Shown a).hide = DockPosition.Hidden a
    ∧ (DockPosition.Shown a).hide.anchor = a
    ∧ (DockPosition.Hidden a).show = DockPosition.Shown a
    ∧ (DockPosition.Hidden a).show.anchor = a
    ∧ (DockPosition.Shown a).anchor = a
    ∧ (DockPosition.Hidden a).anchor = a
    ∧ p.hide.anchor = p.anchor
    ∧ p.show.anchor = p.anchor := by
  cases p <;> exact ⟨rfl, rfl, rfl, rfl, rfl, rfl, rfl, rfl⟩

/-- Hiding always yields an invisible position. -/
theorem DockPosition.hide_is_visible (p : DockPosition) :
    p.hide.is_visible = false := by
  cases p <;> rfl

/-- On an already-hidden position, `hide` is the identity. -/
theorem DockPosition.hide_of_not_visible (p : DockPosition)
    (h : p.is_visible = false) : p.hide = p := by
  cases p
  · simp [DockPosition.is_visible] at h
  · rfl

/-- On an already-shown position, `show` is the identity. -/
theorem DockPosition.show_of_visible (p : DockPosition)
    (h : p.is_visible = true) : p.show = p := by
  cases p
  · rfl
  · simp [DockPosition.is_visible] at h

/-- Showing always yields a visible position. -/
theorem DockPosition.show_is_visible (p : DockPosition) :
    p.show.is_visible = true := by
  cases p <;> rfl

/-- `is_anchored_at a` holds exactly when the position is `Shown a`. -/
theorem Dock.is_anchored_at_eq_true (d : Dock) (a : DockAnchor) :
    d.is_anchored_at a = true ↔ d.position = DockPosition.Shown a := by
  cases hd : d.position <;>
    simp [Dock.is_anchored_at, hd, DockPosition.is_visible, DockPosition.anchor]

/-- A sample workspace: dock hidden at Right with one item already in the
pane, both sidebars closed, an alive last-active center pane, focus on some
unrelated view. -/
def sample_hidden_ws : Workspace :=
  { dock := { position := DockPosition.Hidden DockAnchor.Right,
              panel_sizes := [(DockAnchor.Right, 240)],
              pane := { items := [4], active_item := some 4,
                        docked := some DockAnchor.Right } },
    left_sidebar_open := false,
    right_sidebar_open := false,
    last_active_center_pane := some { id := 1, alive := true },
    focus := FocusTarget.other 9,
    next_item_id := 5,
    events := [] }

/-- A sample workspace whose dock pane is empty and hidden at Right. -/
def sample_empty_ws : Workspace :=
  { dock := { position := DockPosition.Hidden DockAnchor.Right,
              panel_sizes := [],
              pane := { items := [], active_item := none,
                        docked := some DockAnchor.Right } },
    left_sidebar_open := false,
    right_sidebar_open := false,
    last_active_center_pane := some { id := 1, alive := true },
    focus := FocusTarget.centerPane 1,
    next_item_id := 0,
    events := [] }

/-- A sample workspace with the right sidebar open and the dock hidden. -/
def sample_right_open_ws : Workspace :=
  { dock := { position := DockPosition.Hidden DockAnchor.Bottom,
              panel_sizes := [],
              pane := { items := [7], active_item := some 7,
                        docked := some DockAnchor.Bottom } },
    left_sidebar_open := true,
    right_sidebar_open := true,
    last_active_center_pane := some { id := 2, alive := true },
    focus := FocusTarget.centerPane 2,
    next_item_id := 8,
    events := [] }

/-- A sample workspace with the dock shown at Right. -/
def sample_shown_right_ws : Workspace :=
  { dock := { position := DockPosition.Shown DockAnchor.Right,
              panel_sizes := [(DockAnchor.Right, 240)],
              pane := { items := [3], active_item := some 3,
                        docked := some DockAnchor.Right } },
    left_sidebar_open := false,
    right_sidebar_open := false,
    last_active_center_pane := some { id := 1, alive := true },
    focus := FocusTarget.dockPane,
    next_item_id := 4,
    events := [] }

/-- Claim C8: `move_dock` is exactly `set_dock_position` with
`Shown(anchor)` (the spec-side reading of `move_to`), and it always leaves
the dock shown at the requested anchor; since it literally is a
`set_dock_position` call, every such call runs the full invariant chain of
that choke point. -/
theorem C8_move_dock_is_set_shown (ws : Workspace) (new_anchor : DockAnchor) :
    move_dock ws new_anchor = move_to_spec ws new_anchor
    ∧ (move_dock ws new_anchor).dock.position = DockPosition.Shown new_anchor :=
  ⟨rfl, set_dock_position_dock_position ws (DockPosition.Shown new_anchor)⟩

/-- Claim C9: every `set_dock_position` call, whichever branch it takes,
appends exactly one `DockAnchorChanged` emission and one `Notify` re-render
request to the trace, and they come last — after any sidebar toggle and any
factory invocation the call performed, i.e. after all state changes were
applied. -/
theorem C9_single_notification_last (ws : Workspace) (p : DockPosition) :
    ∃ tr : List Event,
      (set_dock_position ws p).events
          = ws.events ++ tr ++ [Event.DockAnchorChanged, Event.Notify]
      ∧ Event.DockAnchorChanged ∉ tr
      ∧ Event.Notify ∉ tr
      ∧ (∀ e ∈ tr, e = Event.FactoryInvoked
            ∨ e = Event.ToggledSidebar SidebarSide.Right) := by
  simp only [set_dock_position, toggle_sidebar, pane_add_item,
    invoke_default_item_factory]
  repeat' split
  all_goals first
    | (refine ⟨[], ?_, ?_, ?_, ?_⟩ <;> (solve | simp))
    | (refine ⟨[Event.ToggledSidebar SidebarSide.Right], ?_, ?_, ?_, ?_⟩ <;>
        (solve | simp))
    | (refine ⟨[Event.FactoryInvoked], ?_, ?_, ?_, ?_⟩ <;> (solve | simp))
    | (refine ⟨[Event.ToggledSidebar SidebarSide.Right, Event.FactoryInvoked],
          ?_, ?_, ?_, ?_⟩ <;> (solve | simp))

/-- Claim C1: on every `set_dock_position` call whose new position is
visible, an empty pane gets exactly one fresh default item, inserted active
and focused; a non-empty pane gets focus without a factory call and without
any change to its items or active item. -/
theorem C1_nonempty_dock_invariant (ws : Workspace) (p : DockPosition)
    (hvis : p.is_visible = true) :
    (ws.dock.pane.items = [] →
        ((set_dock_position ws p).events.count Event.FactoryInvoked
            = ws.events.count Event.FactoryInvoked + 1
          ∧ (set_dock_position ws p).dock.pane.items = [ws.next_item_id]
          ∧ (set_dock_position ws p).dock.pane.active_item = some ws.next_item_id
          ∧ (set_dock_position ws p).focus = FocusTarget.dockPane))
    ∧ (ws.dock.pane.items ≠ [] →
        ((set_dock_position ws p).events.count Event.FactoryInvoked
            = ws.events.count Event.FactoryInvoked
          ∧ (set_dock_position ws p).dock.pane.items = ws.dock.pane.items
          ∧ (set_dock_position ws p).dock.pane.active_item
              = ws.dock.pane.active_item
          ∧ (set_dock_position ws p).focus = FocusTarget.dockPane)) := by
  constructor <;> intro hempty <;>
    simp only [set_dock_position, toggle_sidebar, pane_add_item,
      invoke_default_item_factory] <;>
    repeat' split
  all_goals simp_all [List.count_append, List.count_cons, List.count_nil]

/-- Claim C2: on every `set_dock_position` call whose new position is
visible: anchored Right with the right sidebar open, the right sidebar is
toggled closed exactly once; anchored Bottom or Expanded, neither sidebar
changes and no toggle happens; a closed right sidebar is never toggled, and
the left sidebar is never toggled at all. -/
theorem C2_right_sidebar_exclusion (ws : Workspace) (p : DockPosition)
    (hvis : p.is_visible = true) :
    ((p.anchor = DockAnchor.Right ∧ ws.right_sidebar_open = true) →
        ((set_dock_position ws p).right_sidebar_open = false
          ∧ (set_dock_position ws p).events.count
                (Event.ToggledSidebar SidebarSide.Right)
              = ws.events.count (Event.ToggledSidebar SidebarSide.Right) + 1))
    ∧ ((p.anchor = DockAnchor.Bottom ∨ p.anchor = DockAnchor.Expanded) →
        ((set_dock_position ws p).right_sidebar_open = ws.right_sidebar_open
          ∧ (set_dock_position ws p).left_sidebar_open = ws.left_sidebar_open
          ∧ ∀ s : SidebarSide,
              (set_dock_position ws p).events.count (Event.ToggledSidebar s)
                = ws.events.count (Event.ToggledSidebar s)))
    ∧ (ws.right_sidebar_open = false →
        ∀ s : SidebarSide,
          (set_dock_position ws p).events.count (Event.ToggledSidebar s)
            = ws.events.count (Event.ToggledSidebar s))
    ∧ (∀ s : SidebarSide, s ≠ SidebarSide.Right →
        (set_dock_position ws p).events.count (Event.ToggledSidebar s)
          = ws.events.count (Event.ToggledSidebar s)) := by
  refine ⟨?_, ?_, ?_, ?_⟩
  · rintro ⟨hanchor, hopen⟩
    simp only [set_dock_position, toggle_sidebar, pane_add_item,
      invoke_default_item_factory]
    repeat' split
    all_goals simp_all [List.count_append, List.count_cons, List.count_nil]
  · rintro (hanchor | hanchor) <;>
      (refine ⟨?_, ?_, ?_⟩ <;> try intro s) <;>
      (try cases s) <;>
      simp only [set_dock_position, toggle_sidebar, pane_add_item,
        invoke_default_item_factory] <;>
      repeat' split
    all_goals simp_all [List.count_append, List.count_cons, List.count_nil]
  · intro hclosed s
    cases s <;>
      simp only [set_dock_position, toggle_sidebar, pane_add_item,
        invoke_default_item_factory] <;>
      repeat' split
    all_goals simp_all [List.count_append, List.count_cons, List.count_nil]
  · intro s hs
    cases s
    · simp only [set_dock_position, toggle_sidebar, pane_add_item,
        invoke_default_item_factory]
      repeat' split
      all_goals simp_all [List.count_append, List.count_cons, List.count_nil]
    · exact absurd rfl hs

/-- Claim C3: `hide_on_sidebar_shown` hides the dock exactly when the right
side opened against a dock shown at Right, or the dock is shown at Expanded;
in every other state the workspace is left completely unchanged. -/
theorem C3_hide_on_sidebar_shown_policy (ws : Workspace) (side : SidebarSide) :
    (((side = SidebarSide.Right
          ∧ ws.dock.position = DockPosition.Shown DockAnchor.Right)
        ∨ ws.dock.position = DockPosition.Shown DockAnchor.Expanded) →
      (hide_on_sidebar_shown ws side).dock.position
        = DockPosition.Hidden ws.dock.position.anchor)
    ∧ (¬ ((side = SidebarSide.Right
          ∧ ws.dock.position = DockPosition.Shown DockAnchor.Right)
        ∨ ws.dock.position = DockPosition.Shown DockAnchor.Expanded) →
      hide_on_sidebar_shown ws side = ws) := by
  constructor
  · intro h
    have hcond : (side = SidebarSide.Right
          ∧ ws.dock.is_anchored_at DockAnchor.Right = true)
        ∨ ws.dock.is_anchored_at DockAnchor.Expanded = true := by
      rcases h with ⟨hs, hp⟩ | hp
      · exact Or.inl ⟨hs, (Dock.is_anchored_at_eq_true _ _).mpr hp⟩
      · exact Or.inr ((Dock.is_anchored_at_eq_true _ _).mpr hp)
    rw [hide_on_sidebar_shown, if_pos hcond, Dock.hide,
      set_dock_position_dock_position]
    rcases h with ⟨_, hp⟩ | hp <;> rw [hp] <;> rfl
  · intro h
    have hcond : ¬ ((side = SidebarSide.Right
          ∧ ws.dock.is_anchored_at DockAnchor.Right = true)
        ∨ ws.dock.is_anchored_at DockAnchor.Expanded = true) := by
      intro hc
      apply h
      rcases hc with ⟨hs, hp⟩ | hp
      · exact Or.inl ⟨hs, (Dock.is_anchored_at_eq_true _ _).mp hp⟩
      · exact Or.inr ((Dock.is_anchored_at_eq_true _ _).mp hp)
    rw [hide_on_sidebar_shown, if_neg hcond]

/-- Claim C7: on every `set_dock_position` call whose new position is
hidden, focus is transferred to the last-active center pane when its weak
reference is still alive, and is left untouched when the reference is absent
or dead; the operation is total either way. -/
theorem C7_hidden_branch_focus (ws : Workspace) (p : DockPosition)
    (hvis : p.is_visible = false) :
    (∀ w : WeakPane, ws.last_active_center_pane = some w → w.alive = true →
        (set_dock_position ws p).focus = FocusTarget.centerPane w.id)
    ∧ ((ws.last_active_center_pane = none
          ∨ ∃ w : WeakPane, ws.last_active_center_pane = some w
              ∧ w.alive = false) →
        (set_dock_position ws p).focus = ws.focus) := by
  cases p with
  | Shown a => simp [DockPosition.is_visible] at hvis
  | Hidden a =>
    constructor
    · intro w hw halive
      simp [set_dock_position, DockPosition.is_visible, hw, WeakPane.upgrade,
        halive, Option.bind]
    · rintro (hnone | ⟨w, hw, hdead⟩) <;>
        simp [set_dock_position, DockPosition.is_visible, WeakPane.upgrade,
          Option.bind, *]

/-- Claim C10: no dock transition removes pane items or touches
`panel_sizes`; the only pane-content mutation any of `set_dock_position`,
`hide`, `show`, `move_dock`, `hide_on_sidebar_shown` performs is appending
the single fresh default item when the pane is empty and the new position
visible. -/
theorem C10_frame_conditions (ws : Workspace) (p : DockPosition)
    (a : DockAnchor) (side : SidebarSide) :
    ((set_dock_position ws p).dock.panel_sizes = ws.dock.panel_sizes
      ∧ ((set_dock_position ws p).dock.pane.items = ws.dock.pane.items
          ∨ ((set_dock_position ws p).dock.pane.items
                = ws.dock.pane.items ++ [ws.next_item_id]
              ∧ ws.dock.pane.items = [] ∧ p.is_visible = true)))
    ∧ ((Dock.hide ws).dock.panel_sizes = ws.dock.panel_sizes
        ∧ (Dock.hide ws).dock.pane.items = ws.dock.pane.items)
    ∧ ((Dock.show ws).dock.panel_sizes = ws.dock.panel_sizes
        ∧ ((Dock.show ws).dock.pane.items = ws.dock.pane.items
            ∨ ((Dock.show ws).dock.pane.items
                  = ws.dock.pane.items ++ [ws.next_item_id]
                ∧ ws.dock.pane.items = [])))
    ∧ ((move_dock ws a).dock.panel_sizes = ws.dock.panel_sizes
        ∧ ((move_dock ws a).dock.pane.items = ws.dock.pane.items
            ∨ ((move_dock ws a).dock.pane.items
                  = ws.dock.pane.items ++ [ws.next_item_id]
                ∧ ws.dock.pane.items = [])))
    ∧ ((hide_on_sidebar_shown ws side).dock.panel_sizes = ws.dock.panel_sizes
        ∧ (hide_on_sidebar_shown ws side).dock.pane.items
            = ws.dock.pane.items) := by
  refine ⟨⟨set_dock_position_panel_sizes ws p, set_dock_position_items ws p⟩,
    ⟨set_dock_position_panel_sizes ws _, ?_⟩,
    ⟨set_dock_position_panel_sizes ws _, ?_⟩,
    ⟨set_dock_position_panel_sizes ws _, ?_⟩, ?_⟩
  · rcases set_dock_position_items ws ws.dock.position.hide with h | ⟨_, _, hv⟩
    · exact h
    · rw [DockPosition.hide_is_visible] at hv
      simp at hv
  · rcases set_dock_position_items ws ws.dock.position.show with h | ⟨h1, h2, _⟩
    · exact Or.inl h
    · exact Or.inr ⟨h1, h2⟩
  · rcases set_dock_position_items ws (DockPosition.Shown a) with h | ⟨h1, h2, _⟩
    · exact Or.inl h
    · exact Or.inr ⟨h1, h2⟩
  · by_cases hc : (side = SidebarSide.Right
        ∧ ws.dock.is_anchored_at DockAnchor.Right = true)
        ∨ ws.dock.is_anchored_at DockAnchor.Expanded = true
    · rw [hide_on_sidebar_shown, if_pos hc]
      refine ⟨set_dock_position_panel_sizes ws _, ?_⟩
      rcases set_dock_position_items ws ws.dock.position.hide with h | ⟨_, _, hv⟩
      · exact h
      · rw [DockPosition.hide_is_visible] at hv
        simp at hv
    · rw [hide_on_sidebar_shown, if_neg hc]
      exact ⟨rfl, rfl⟩

/-- Claim C4 counterexample: on a workspace whose dock is already hidden,
`Dock::hide` is accepted but does not leave the workspace unchanged: the
hidden branch of `set_dock_position` still runs and moves input focus to the
last-active center pane. -/
theorem C4_counterexample :
    sample_hidden_ws.dock.position.is_visible = false
    ∧ (Dock.hide sample_hidden_ws).focus ≠ sample_hidden_ws.focus := by
  decide

/-- Claim C4 (amended): redundant transitions — hide while already hidden,
show while already shown — are always accepted, never rejected or failing
(the operations are total), and leave the dock position and `panel_sizes`
unchanged; but they are not full no-ops, because each call still re-runs
`set_dock_position`'s branch: hide-while-hidden leaves the pane items
unchanged and moves input focus to the last-active center pane when that
weak reference is alive (focus is untouched when it is absent or dead);
show-while-shown moves input focus to the dock pane, leaves the pane items
unchanged when the pane is non-empty, and appends the single fresh default
item when the pane is empty. -/
theorem C4_redundant_transitions_accepted (ws : Workspace) :
    (ws.dock.position.is_visible = false →
        ((Dock.hide ws).dock.position = ws.dock.position
          ∧ (Dock.hide ws).dock.pane.items = ws.dock.pane.items
          ∧ (Dock.hide ws).dock.panel_sizes = ws.dock.panel_sizes
          ∧ (∀ w : WeakPane, ws.last_active_center_pane = some w →
              w.alive = true →
              (Dock.hide ws).focus = FocusTarget.centerPane w.id)
          ∧ (ws.last_active_center_pane.bind WeakPane.upgrade = none →
              (Dock.hide ws).focus = ws.focus)))
    ∧ (ws.dock.position.is_visible = true →
        ((Dock.show ws).dock.position = ws.dock.position
          ∧ (Dock.show ws).dock.panel_sizes = ws.dock.panel_sizes
          ∧ (Dock.show ws).focus = FocusTarget.dockPane
          ∧ (ws.dock.pane.items = [] →
              (Dock.show ws).dock.pane.items = [ws.next_item_id])
          ∧ (ws.dock.pane.items ≠ [] →
              (Dock.show ws).dock.pane.items = ws.dock.pane.items))) := by
  constructor
  · intro hvis
    refine ⟨?_, ?_, set_dock_position_panel_sizes ws _, ?_, ?_⟩
    · rw [Dock.hide, set_dock_position_dock_position,
        DockPosition.hide_of_not_visible _ hvis]
    · rcases set_dock_position_items ws ws.dock.position.hide with h | ⟨_, _, hv⟩
      · exact h
      · rw [DockPosition.hide_is_visible] at hv
        simp at hv
    · intro w hw halive
      rw [Dock.hide]
      simp [set_dock_position, DockPosition.hide_is_visible, hw,
        WeakPane.upgrade, halive, Option.bind]
    · intro hnone
      rw [Dock.hide]
      simp [set_dock_position, DockPosition.hide_is_visible, hnone]
  · intro hvis
    refine ⟨?_, set_dock_position_panel_sizes ws _, ?_, ?_, ?_⟩
    · rw [Dock.show, set_dock_position_dock_position,
        DockPosition.show_of_visible _ hvis]
    · rw [Dock.show]
      simp only [set_dock_position, toggle_sidebar, pane_add_item,
        invoke_default_item_factory]
      repeat' split
      all_goals simp_all [DockPosition.show_is_visible]
    · intro hempty
      rw [Dock.show]
      simp only [set_dock_position, toggle_sidebar, pane_add_item,
        invoke_default_item_factory]
      repeat' split
      all_goals simp_all [DockPosition.show_is_visible]
    · intro hnonempty
      rw [Dock.show]
      simp only [set_dock_position, toggle_sidebar, pane_add_item,
        invoke_default_item_factory]
      repeat' split
      all_goals simp_all [DockPosition.show_is_visible]

/-- Workspace with a dead last-active-center-pane reference and the dock
hidden, used to witness the graceful-degradation branches. -/
def sample_dead_ref_ws : Workspace :=
  { sample_hidden_ws with
      last_active_center_pane := some { id := 1, alive := false } }

/-- Workspace with the dock already shown at Bottom and an empty pane, used
to witness the show-while-shown branch of the amended C4. -/
def sample_shown_empty_ws : Workspace :=
  { dock := { position := DockPosition.Shown DockAnchor.Bottom,
              panel_sizes := [],
              pane := { items := [], active_item := none,
                        docked := some DockAnchor.Bottom } },
    left_sidebar_open := false,
    right_sidebar_open := false,
    last_active_center_pane := none,
    focus := FocusTarget.dockPane,
    next_item_id := 42,
    events := [] }

/-- Witness for C4: hide-while-hidden at a concrete workspace with a dead
center-pane reference keeps position, items and focus unchanged, and
show-while-shown at a concrete workspace with an empty pane keeps the
position but appends the fresh default item. -/
theorem C4_witness :
    sample_dead_ref_ws.dock.position.is_visible = false
    ∧ (Dock.hide sample_dead_ref_ws).dock.position
        = sample_dead_ref_ws.dock.position
    ∧ (Dock.hide sample_dead_ref_ws).focus = sample_dead_ref_ws.focus
    ∧ sample_shown_empty_ws.dock.position.is_visible = true
    ∧ (Dock.show sample_shown_empty_ws).dock.position
        = sample_shown_empty_ws.dock.position
    ∧ (Dock.show sample_shown_empty_ws).dock.pane.items = [42] := by
  have h1 := C4_redundant_transitions_accepted sample_dead_ref_ws
  have h2 := C4_redundant_transitions_accepted sample_shown_empty_ws
  exact ⟨rfl, (h1.1 rfl).1, (h1.1 rfl).2.2.2.2 rfl,
    rfl, (h2.2 rfl).1, (h2.2 rfl).2.2.2.1 rfl⟩

/-- Witness for C1: showing the dock at Bottom on a workspace with an empty
dock pane yields exactly the one fresh item, active, with the pane
focused. -/
theorem C1_witness :
    (DockPosition.Shown DockAnchor.Bottom).is_visible = true
    ∧ (set_dock_position sample_empty_ws
          (DockPosition.Shown DockAnchor.Bottom)).dock.pane.items = [0]
    ∧ (set_dock_position sample_empty_ws
          (DockPosition.Shown DockAnchor.Bottom)).focus
        = FocusTarget.dockPane := by
  have h := C1_nonempty_dock_invariant sample_empty_ws
    (DockPosition.Shown DockAnchor.Bottom) rfl
  refine ⟨rfl, ?_, (h.1 rfl).2.2.2⟩
  simpa [sample_empty_ws] using (h.1 rfl).2.1

/-- Witness for C2: showing the dock at Right while the right sidebar is
open closes the right sidebar. -/
theorem C2_witness :
    (DockPosition.Shown DockAnchor.Right).is_visible = true
    ∧ (set_dock_position sample_right_open_ws
          (DockPosition.Shown DockAnchor.Right)).right_sidebar_open = false := by
  have h := C2_right_sidebar_exclusion sample_right_open_ws
    (DockPosition.Shown DockAnchor.Right) rfl
  exact ⟨rfl, (h.1 ⟨rfl, rfl⟩).1⟩

/-- Witness for C3: the right sidebar opening against a dock shown at Right
hides the dock, anchor preserved. -/
theorem C3_witness :
    (hide_on_sidebar_shown sample_shown_right_ws
        SidebarSide.Right).dock.position
      = DockPosition.Hidden DockAnchor.Right := by
  have h := (C3_hide_on_sidebar_shown_policy sample_shown_right_ws
    SidebarSide.Right).1 (Or.inl ⟨rfl, rfl⟩)
  exact h

/-- Witness for C7: hiding the dock on a workspace whose last-active center
pane is alive transfers focus to that pane. -/
theorem C7_witness :
    (DockPosition.Hidden DockAnchor.Bottom).is_visible = false
    ∧ (set_dock_position sample_hidden_ws
          (DockPosition.Hidden DockAnchor.Bottom)).focus
        = FocusTarget.centerPane 1 := by
  have h := C7_hidden_branch_focus sample_hidden_ws
    (DockPosition.Hidden DockAnchor.Bottom) rfl
  exact ⟨rfl, h.1 { id := 1, alive := true } rfl rfl⟩

end DockModel
